import Mathlib

/-!
Shallow embedding of the ChromaSense game engine (`src/src/App.tsx`).

The engine consists of a difficulty-scaled color generator (`generateColor`),
a session state machine driven by `startGame`, `handleBlockClick` and the
one-second timer `tick`, and a display metric (`diffMetric`).

JavaScript numbers are modelled by `ℚ`; every arithmetic value the engine
produces (color channels, delta, time, score) is an exact small rational, so
the rational model coincides with IEEE double behaviour on all reachable
values.  Each call to `Math.random()` is modelled as an explicit rational
draw in `[0,1)`, collected in a `RandSrc` record.
-/

namespace ChromaSense

/-- JavaScript `%` for the non-negative operands used by the engine
(`(h + delta) % 360` with `h + delta ≥ 0`): `x - y * ⌊x / y⌋`. -/
def jsMod (x y : ℚ) : ℚ := x - y * (⌊x / y⌋ : ℤ)

/-- JavaScript `Number(x.toFixed(2))`: round to two decimal places.
All reachable inputs are multiples of `1/4`, where this is exact. -/
def toFixed2 (x : ℚ) : ℚ := (round (x * 100) : ℤ) / 100

/-- HSL color: `interface Color { h: number; s: number; l: number }`. -/
structure Color where
  h : ℚ
  s : ℚ
  l : ℚ
deriving DecidableEq, Repr

/-- Round data: `interface LevelData { baseColor; diffColor; diffIndex; gridSize }`. -/
structure LevelData where
  baseColor : Color
  diffColor : Color
  diffIndex : ℤ
  gridSize : ℤ
deriving DecidableEq, Repr

/-- One rational in `[0,1)` for each `Math.random()` call `generateColor` can make:
base hue, base saturation, base lightness, channel choice, perturbation sign,
and the diff cell index. -/
structure RandSrc where
  rh : ℚ
  rs : ℚ
  rl : ℚ
  rtype : ℚ
  rsign : ℚ
  ridx : ℚ
deriving DecidableEq, Repr

/-- Every draw of the random source lies in `[0,1)`, as `Math.random()` guarantees. -/
def RandSrc.Valid (r : RandSrc) : Prop :=
  0 ≤ r.rh ∧ r.rh < 1 ∧ 0 ≤ r.rs ∧ r.rs < 1 ∧ 0 ≤ r.rl ∧ r.rl < 1 ∧
  0 ≤ r.rtype ∧ r.rtype < 1 ∧ 0 ≤ r.rsign ∧ r.rsign < 1 ∧ 0 ≤ r.ridx ∧ r.ridx < 1

instance (r : RandSrc) : Decidable r.Valid := by
  unfold RandSrc.Valid
  infer_instance

/-- Perturbation magnitude `const delta = Math.max(1.5, 15 - (difficulty * 0.25))`. -/
def deltaOf (difficulty : ℤ) : ℚ := max (3 / 2) (15 - (difficulty : ℚ) * (1 / 4))

/-- Which of the three channels the draw `type = Math.random()` selects:
`type < 0.33` picks hue, `type < 0.66` picks saturation, otherwise lightness. -/
inductive Channel where
  | hue
  | sat
  | light
deriving DecidableEq, Repr

/-- Channel selection as written in `generateColor`:
`if (type < 0.33) ... else if (type < 0.66) ... else ...`. -/
def channelOf (t : ℚ) : Channel :=
  if t < 33 / 100 then Channel.hue
  else if t < 66 / 100 then Channel.sat
  else Channel.light

/-- Embedding of `generateColor` (`App.tsx` lines 41-72). -/
def generateColor (difficulty : ℤ) (r : RandSrc) : LevelData :=
  let h : ℚ := (⌊r.rh * 360⌋ : ℤ)
  let s : ℚ := ((⌊r.rs * 40⌋ : ℤ) : ℚ) + 40
  let l : ℚ := ((⌊r.rl * 40⌋ : ℤ) : ℚ) + 30
  let d : ℚ := deltaOf difficulty
  let diff : Color :=
    if r.rtype < 33 / 100 then
      { h := jsMod (h + d) 360, s := s, l := l }
    else if r.rtype < 66 / 100 then
      { h := h, s := min 100 (max 0 (s + (if r.rsign > 1 / 2 then d else -d))), l := l }
    else
      { h := h, s := s, l := min 100 (max 0 (l + (if r.rsign > 1 / 2 then d else -d))) }
  let gridSize : ℤ := 5
  { baseColor := { h := h, s := s, l := l }
    diffColor := diff
    diffIndex := ⌊r.ridx * ((gridSize * gridSize : ℤ) : ℚ)⌋
    gridSize := gridSize }

/-- CSS encoding used throughout the component:
`hsl(${c.h}, ${c.s}%, ${c.l}%)` (`colorToCss`, line 137). -/
def colorToCss (c : Color) : String :=
  "hsl(" ++ toString c.h ++ ", " ++ toString c.s ++ "%, " ++ toString c.l ++ "%)"

/-- Display feedback snapshot: `{ base: string; diff: string; delta: number }`. -/
structure MatchFeedback where
  base : String
  diff : String
  delta : ℚ
deriving DecidableEq, Repr

/-- Raw L1 distance over the three channels, as computed at lines 94-96:
`Math.abs(h-dh) + Math.abs(s-ds) + Math.abs(l-dl)`. -/
def l1Delta (ld : LevelData) : ℚ :=
  |ld.baseColor.h - ld.diffColor.h| + |ld.baseColor.s - ld.diffColor.s| +
    |ld.baseColor.l - ld.diffColor.l|

/-- Feedback snapshot built on a correct click (`App.tsx` lines 91-98):
the two css strings and `Number(delta.toFixed(2))` of the L1 distance. -/
def diffMetric (ld : LevelData) : MatchFeedback :=
  { base := "hsl(" ++ toString ld.baseColor.h ++ ", " ++ toString ld.baseColor.s ++
      "%, " ++ toString ld.baseColor.l ++ "%)"
    diff := "hsl(" ++ toString ld.diffColor.h ++ ", " ++ toString ld.diffColor.s ++
      "%, " ++ toString ld.diffColor.l ++ "%)"
    delta := toFixed2 (l1Delta ld) }

/-- Game state: `type GameState = 'START' | 'PLAYING' | 'GAMEOVER'`. -/
inductive GameState where
  | START
  | PLAYING
  | GAMEOVER
deriving DecidableEq, Repr

/-- The session aggregate: the five `useState` cells of `App`. -/
structure Session where
  gameState : GameState
  score : ℤ
  timeLeft : ℤ
  levelData : Option LevelData
  lastDiff : Option MatchFeedback
deriving DecidableEq, Repr

/-- Embedding of `startGame` (lines 74-80): reset score and clock, enter
`PLAYING`, generate the first round at difficulty 0, clear the feedback. -/
def startGame (r : RandSrc) : Session :=
  { gameState := GameState.PLAYING
    score := 0
    timeLeft := 60
    levelData := some (generateColor 0 r)
    lastDiff := none }

/-- Embedding of `handleBlockClick` (lines 82-110).  `r` supplies the
randomness of the `generateColor` call made on a correct click. -/
def handleBlockClick (s : Session) (index : ℤ) (r : RandSrc) : Session :=
  if s.gameState ≠ GameState.PLAYING then s
  else
    match s.levelData with
    | none => s
    | some ld =>
      if index = ld.diffIndex then
        { s with
          score := s.score + 1
          lastDiff := some (diffMetric ld)
          timeLeft := min 60 (s.timeLeft + 2)
          levelData := some (generateColor (s.score + 1) r) }
      else
        { s with timeLeft := max 0 (s.timeLeft - 5) }

/-- The timer interval exists exactly while the state is `PLAYING`
(the `useEffect` at lines 112-135 arms it on entering `PLAYING` and
clears it otherwise), so a tick can only be observed in that state. -/
def timerArmed (s : Session) : Bool := s.gameState == GameState.PLAYING

/-- Body of the interval callback (lines 115-126): if the pre-decrement time
is `≤ 1`, end the game at time 0 and fire the confetti effect (the `Bool`);
otherwise decrement.  A tick is delivered only while the timer is armed. -/
def tick (s : Session) : Session × Bool :=
  if timerArmed s then
    if s.timeLeft ≤ 1 then
      ({ s with timeLeft := 0, gameState := GameState.GAMEOVER }, true)
    else
      ({ s with timeLeft := s.timeLeft - 1 }, false)
  else (s, false)

/-- Session invariant stated in the design: score is non-negative and the
clock stays inside `[0, 60]`. -/
def SessionInv (s : Session) : Prop :=
  0 ≤ s.score ∧ 0 ≤ s.timeLeft ∧ s.timeLeft ≤ 60

/-- Base hue drawn by `generateColor`: `Math.floor(Math.random() * 360)`. -/
def baseH (r : RandSrc) : ℚ := ((⌊r.rh * 360⌋ : ℤ) : ℚ)

/-- Base saturation drawn by `generateColor`: `Math.floor(Math.random() * 40) + 40`. -/
def baseS (r : RandSrc) : ℚ := ((⌊r.rs * 40⌋ : ℤ) : ℚ) + 40

/-- Base lightness drawn by `generateColor`: `Math.floor(Math.random() * 40) + 30`. -/
def baseL (r : RandSrc) : ℚ := ((⌊r.rl * 40⌋ : ℤ) : ℚ) + 30

/-- Signed perturbation used in the saturation/lightness branches:
`Math.random() > 0.5 ? delta : -delta`. -/
def signOf (d : ℤ) (r : RandSrc) : ℚ :=
  if r.rsign > 1 / 2 then deltaOf d else -deltaOf d

/-- Number of draws on the uniform grid `{k/n : k < n}` that select channel `c`.
The thresholds `0.33` and `0.66` are multiples of `1/300`, so with `n = 300`
the proportion `channelGridCount 300 c / 300` equals the probability of `c`
under a uniform draw on `[0,1)`. -/
def channelGridCount (n : ℕ) (c : Channel) : ℕ :=
  ((List.range n).filter (fun k : ℕ => decide (channelOf ((k : ℚ) / (n : ℚ)) = c))).length

/-- Fixed all-zeros draw of the random source, used by concrete witnesses. -/
def sampleRand : RandSrc := ⟨0, 0, 0, 0, 0, 0⟩

/-- Concrete round produced at difficulty 0 from the all-zeros draw. -/
def demoLevel : LevelData := generateColor 0 sampleRand

/-- Concrete mid-game session holding `demoLevel`. -/
def demoPlaying : Session :=
  { gameState := GameState.PLAYING, score := 2, timeLeft := 50,
    levelData := some demoLevel, lastDiff := none }

/-! ### Basic lemmas about the generator's arithmetic -/

lemma deltaOf_ge (d : ℤ) : 3 / 2 ≤ deltaOf d := le_max_left _ _

lemma deltaOf_pos (d : ℤ) : 0 < deltaOf d :=
  lt_of_lt_of_le (by norm_num) (deltaOf_ge d)

lemma deltaOf_le (d : ℤ) (hd : 0 ≤ d) : deltaOf d ≤ 15 := by
  have hdq : (0 : ℚ) ≤ (d : ℚ) := by exact_mod_cast hd
  unfold deltaOf
  apply max_le (by norm_num)
  nlinarith

lemma floor_mul_lb {x c : ℚ} (h0 : 0 ≤ x) (hc : 0 ≤ c) : 0 ≤ ⌊x * c⌋ :=
  Int.le_floor.2 (by push_cast; exact mul_nonneg h0 hc)

lemma floor_mul_ub {x c : ℚ} (h1 : x < 1) (hc : 0 < c) : ((⌊x * c⌋ : ℤ) : ℚ) < c :=
  calc ((⌊x * c⌋ : ℤ) : ℚ) ≤ x * c := Int.floor_le _
    _ < 1 * c := mul_lt_mul_of_pos_right h1 hc
    _ = c := one_mul c

lemma jsMod_eq_self {x : ℚ} (h0 : 0 ≤ x) (h1 : x < 360) : jsMod x 360 = x := by
  unfold jsMod
  have hz : ⌊x / 360⌋ = 0 := by
    rw [Int.floor_eq_zero_iff]
    refine Set.mem_Ico.2 ⟨by positivity, ?_⟩
    rw [div_lt_one (by norm_num : (0 : ℚ) < 360)]
    exact h1
  rw [hz]
  push_cast
  ring

lemma jsMod_wrap {x : ℚ} (h0 : 360 ≤ x) (h1 : x < 720) : jsMod x 360 = x - 360 := by
  unfold jsMod
  have hz : ⌊x / 360⌋ = 1 := by
    rw [Int.floor_eq_iff]
    constructor
    · push_cast
      rw [le_div_iff₀ (by norm_num : (0 : ℚ) < 360)]
      linarith
    · push_cast
      rw [div_lt_iff₀ (by norm_num : (0 : ℚ) < 360)]
      linarith
  rw [hz]
  push_cast
  ring

lemma channelOf_hue_iff (t : ℚ) : channelOf t = Channel.hue ↔ t < 33 / 100 := by
  unfold channelOf
  split_ifs with h1 h2 <;> simp_all

lemma channelOf_sat_iff (t : ℚ) :
    channelOf t = Channel.sat ↔ 33 / 100 ≤ t ∧ t < 66 / 100 := by
  unfold channelOf
  split_ifs with h1 h2 <;> simp_all [not_lt]

lemma channelOf_light_iff (t : ℚ) : channelOf t = Channel.light ↔ 66 / 100 ≤ t := by
  unfold channelOf
  split_ifs with h1 h2 <;> simp_all [not_lt]
  linarith

/-! ### Projection lemmas for `generateColor` -/

lemma generateColor_baseColor (d : ℤ) (r : RandSrc) :
    (generateColor d r).baseColor = { h := baseH r, s := baseS r, l := baseL r } := rfl

lemma generateColor_gridSize (d : ℤ) (r : RandSrc) :
    (generateColor d r).gridSize = 5 := rfl

lemma generateColor_diffIndex (d : ℤ) (r : RandSrc) :
    (generateColor d r).diffIndex = ⌊r.ridx * 25⌋ := by
  norm_num [generateColor]

lemma generateColor_diffColor_hue (d : ℤ) (r : RandSrc) (ht : r.rtype < 33 / 100) :
    (generateColor d r).diffColor =
      { h := jsMod (baseH r + deltaOf d) 360, s := baseS r, l := baseL r } := by
  simp [generateColor, baseH, baseS, baseL, ht]

lemma generateColor_diffColor_sat (d : ℤ) (r : RandSrc)
    (ht1 : ¬ r.rtype < 33 / 100) (ht2 : r.rtype < 66 / 100) :
    (generateColor d r).diffColor =
      { h := baseH r, s := min 100 (max 0 (baseS r + signOf d r)), l := baseL r } := by
  simp [generateColor, baseH, baseS, baseL, signOf, ht1, ht2]

lemma generateColor_diffColor_light (d : ℤ) (r : RandSrc)
    (ht1 : ¬ r.rtype < 33 / 100) (ht2 : ¬ r.rtype < 66 / 100) :
    (generateColor d r).diffColor =
      { h := baseH r, s := baseS r, l := min 100 (max 0 (baseL r + signOf d r)) } := by
  simp [generateColor, baseH, baseS, baseL, signOf, ht1, ht2]

lemma baseH_bounds (r : RandSrc) (hr : r.Valid) : 0 ≤ baseH r ∧ baseH r < 360 := by
  obtain ⟨h0, h1, -⟩ := hr
  unfold baseH
  exact ⟨by exact_mod_cast floor_mul_lb h0 (by norm_num : (0 : ℚ) ≤ 360),
    floor_mul_ub h1 (by norm_num)⟩

lemma baseS_bounds (r : RandSrc) (hr : r.Valid) : 40 ≤ baseS r ∧ baseS r < 80 := by
  obtain ⟨-, -, h0, h1, -⟩ := hr
  have lb : (0 : ℚ) ≤ ((⌊r.rs * 40⌋ : ℤ) : ℚ) := by
    exact_mod_cast floor_mul_lb h0 (by norm_num : (0 : ℚ) ≤ 40)
  have ub := floor_mul_ub h1 (by norm_num : (0 : ℚ) < 40)
  unfold baseS
  constructor <;> linarith

lemma baseL_bounds (r : RandSrc) (hr : r.Valid) : 30 ≤ baseL r ∧ baseL r < 70 := by
  obtain ⟨-, -, -, -, h0, h1, -⟩ := hr
  have lb : (0 : ℚ) ≤ ((⌊r.rl * 40⌋ : ℤ) : ℚ) := by
    exact_mod_cast floor_mul_lb h0 (by norm_num : (0 : ℚ) ≤ 40)
  have ub := floor_mul_ub h1 (by norm_num : (0 : ℚ) < 40)
  unfold baseL
  constructor <;> linarith

lemma signOf_cases (d : ℤ) (r : RandSrc) :
    signOf d r = deltaOf d ∨ signOf d r = -deltaOf d := by
  unfold signOf
  split_ifs
  · exact Or.inl rfl
  · exact Or.inr rfl

lemma hue_perturb_ne {bh d : ℚ} (h0 : 0 ≤ bh) (h1 : bh < 360)
    (hd0 : 0 < d) (hd15 : d ≤ 15) : jsMod (bh + d) 360 ≠ bh := by
  rcases lt_or_ge (bh + d) 360 with hc | hc
  · rw [jsMod_eq_self (by linarith) hc]
    intro hEq
    linarith
  · rw [jsMod_wrap hc (by linarith)]
    intro hEq
    linarith

lemma clamp_id {v : ℚ} (h0 : 0 ≤ v) (h1 : v ≤ 100) : min 100 (max 0 v) = v := by
  rw [max_eq_right h0, min_eq_right h1]

lemma sat_value_bounds (d : ℤ) (r : RandSrc) (hd : 0 ≤ d) (hr : r.Valid) :
    0 < baseS r + signOf d r ∧ baseS r + signOf d r < 100 := by
  obtain ⟨hb1, hb2⟩ := baseS_bounds r hr
  have hδ1 := deltaOf_ge d
  have hδ2 := deltaOf_le d hd
  rcases signOf_cases d r with h | h <;> rw [h] <;> constructor <;> linarith

lemma light_value_bounds (d : ℤ) (r : RandSrc) (hd : 0 ≤ d) (hr : r.Valid) :
    0 < baseL r + signOf d r ∧ baseL r + signOf d r < 100 := by
  obtain ⟨hb1, hb2⟩ := baseL_bounds r hr
  have hδ1 := deltaOf_ge d
  have hδ2 := deltaOf_le d hd
  rcases signOf_cases d r with h | h <;> rw [h] <;> constructor <;> linarith

lemma diffColor_sat_eq (d : ℤ) (r : RandSrc) (hd : 0 ≤ d) (hr : r.Valid)
    (ht : channelOf r.rtype = Channel.sat) :
    (generateColor d r).diffColor =
      { h := baseH r, s := baseS r + signOf d r, l := baseL r } := by
  obtain ⟨ht1, ht2⟩ := (channelOf_sat_iff r.rtype).1 ht
  rw [generateColor_diffColor_sat d r (not_lt.2 ht1) ht2]
  obtain ⟨hv0, hv1⟩ := sat_value_bounds d r hd hr
  rw [clamp_id hv0.le hv1.le]

lemma diffColor_light_eq (d : ℤ) (r : RandSrc) (hd : 0 ≤ d) (hr : r.Valid)
    (ht : channelOf r.rtype = Channel.light) :
    (generateColor d r).diffColor =
      { h := baseH r, s := baseS r, l := baseL r + signOf d r } := by
  have ht2 := (channelOf_light_iff r.rtype).1 ht
  rw [generateColor_diffColor_light d r (by linarith) (by linarith)]
  obtain ⟨hv0, hv1⟩ := light_value_bounds d r hd hr
  rw [clamp_id hv0.le hv1.le]

lemma diffColor_hue_eq (d : ℤ) (r : RandSrc) (ht : channelOf r.rtype = Channel.hue) :
    (generateColor d r).diffColor =
      { h := jsMod (baseH r + deltaOf d) 360, s := baseS r, l := baseL r } :=
  generateColor_diffColor_hue d r ((channelOf_hue_iff r.rtype).1 ht)

lemma signOf_ne_zero (d : ℤ) (r : RandSrc) : signOf d r ≠ 0 := by
  have h := deltaOf_pos d
  rcases signOf_cases d r with hc | hc <;> rw [hc] <;> intro hEq <;> linarith

/-! ### Claim theorems -/

/-- C1: for every integer difficulty `d ≥ 0` the perturbation magnitude equals
`max(1.5, 15 − 0.25·d)`; in particular it equals `15` at `d = 0` and equals
`1.5` for every `d ≥ 54`. -/
theorem deltaOf_spec (d : ℤ) (hd : 0 ≤ d) :
    deltaOf d = max (3 / 2) (15 - (d : ℚ) * (1 / 4)) ∧
      deltaOf 0 = 15 ∧ (54 ≤ d → deltaOf d = 3 / 2) := by
  refine ⟨rfl, by norm_num [deltaOf], fun h54 => ?_⟩
  have hq : (54 : ℚ) ≤ (d : ℚ) := by exact_mod_cast h54
  unfold deltaOf
  rw [max_eq_left]
  linarith

/-- Witness for C1 at the concrete difficulty `d = 54`. -/
theorem deltaOf_spec_witness :
    deltaOf 54 = max (3 / 2) (15 - (54 : ℚ) * (1 / 4)) ∧
      deltaOf 0 = 15 ∧ (54 ≤ (54 : ℤ) → deltaOf 54 = 3 / 2) :=
  deltaOf_spec 54 (by norm_num)

/-- C6: a click delivered while the session is not `PLAYING` (i.e. in the
start menu or after game over) leaves the whole session unchanged. -/
theorem click_ignored_outside_playing (s : Session) (i : ℤ) (r : RandSrc)
    (hg : s.gameState = GameState.START ∨ s.gameState = GameState.GAMEOVER) :
    handleBlockClick s i r = s := by
  rcases hg with h | h <;> simp [handleBlockClick, h]

/-- Witness for C6: a concrete click in the `START` state is a no-op. -/
theorem click_ignored_outside_playing_witness :
    handleBlockClick
        { gameState := GameState.START, score := 0, timeLeft := 60,
          levelData := none, lastDiff := none } 3 ⟨0, 0, 0, 0, 0, 0⟩ =
      { gameState := GameState.START, score := 0, timeLeft := 60,
        levelData := none, lastDiff := none } :=
  click_ignored_outside_playing _ 3 _ (Or.inl rfl)

/-- C7: a tick in the `PLAYING` state decrements `timeLeft` by one, except
that when the pre-decrement value is `≤ 1` it sets `timeLeft` to `0`,
transitions to `GAMEOVER` and fires the one-shot celebratory effect; the
timer is then disarmed, so a further tick is a non-event. -/
theorem tick_spec (s : Session) (hg : s.gameState = GameState.PLAYING) :
    (1 < s.timeLeft → tick s = ({ s with timeLeft := s.timeLeft - 1 }, false)) ∧
      (s.timeLeft ≤ 1 →
        tick s = ({ s with timeLeft := 0, gameState := GameState.GAMEOVER }, true) ∧
          timerArmed (tick s).1 = false ∧ tick (tick s).1 = ((tick s).1, false)) := by
  have harm : timerArmed s = true := by simp [timerArmed, hg]
  constructor
  · intro h
    simp [tick, harm, not_le.2 h]
  · intro h
    have hend : tick s = ({ s with timeLeft := 0, gameState := GameState.GAMEOVER }, true) := by
      simp [tick, harm, h]
    refine ⟨hend, ?_, ?_⟩
    · rw [hend]
      simp [timerArmed]
    · rw [hend]
      simp [tick, timerArmed]

/-- Witness for C7 at a concrete playing session with one second left. -/
theorem tick_spec_witness :
    (1 : ℤ) ≤ 1 ∧
      tick
          { gameState := GameState.PLAYING, score := 4, timeLeft := 1,
            levelData := none, lastDiff := none } =
        ({ gameState := GameState.GAMEOVER, score := 4, timeLeft := 0,
            levelData := none, lastDiff := none }, true) :=
  ⟨le_refl 1,
    ((tick_spec
      { gameState := GameState.PLAYING, score := 4, timeLeft := 1,
        levelData := none, lastDiff := none } rfl).2 (le_refl 1)).1⟩

/-- C8: the session invariant `0 ≤ score` and `0 ≤ timeLeft ≤ 60` is
established by `startGame` (score 0, clock 60) and preserved by every click
and every tick. -/
theorem session_invariant :
    (∀ r, SessionInv (startGame r)) ∧
      (∀ s i r, SessionInv s → SessionInv (handleBlockClick s i r)) ∧
      (∀ s, SessionInv s → SessionInv (tick s).1) := by
  refine ⟨fun r => ⟨by norm_num [startGame], by norm_num [startGame], by norm_num [startGame]⟩,
    fun s i r hInv => ?_, fun s hInv => ?_⟩
  · obtain ⟨h1, h2, h3⟩ := hInv
    unfold handleBlockClick
    split
    · exact ⟨h1, h2, h3⟩
    · split
      · exact ⟨h1, h2, h3⟩
      · split
        · exact ⟨by simp only; omega, by simp only; omega, by simp only; omega⟩
        · exact ⟨by simp only; omega, by simp only; omega, by simp only; omega⟩
  · obtain ⟨h1, h2, h3⟩ := hInv
    unfold tick
    split
    · split
      · exact ⟨by simp only; omega, by simp only; omega, by simp only; omega⟩
      · exact ⟨by simp only; omega, by simp only; omega, by simp only; omega⟩
    · exact ⟨h1, h2, h3⟩

/-- Witness for C8: the invariant concretely holds after a start, a wrong
click and a tick from a concrete session. -/
theorem session_invariant_witness :
    SessionInv (startGame ⟨0, 0, 0, 0, 0, 0⟩) ∧
      SessionInv (handleBlockClick
        { gameState := GameState.PLAYING, score := 2, timeLeft := 3,
          levelData := none, lastDiff := none } 0 ⟨0, 0, 0, 0, 0, 0⟩) ∧
      SessionInv (tick
        { gameState := GameState.PLAYING, score := 2, timeLeft := 3,
          levelData := none, lastDiff := none }).1 :=
  ⟨session_invariant.1 _,
    session_invariant.2.1 _ 0 _ ⟨by norm_num, by norm_num, by norm_num⟩,
    session_invariant.2.2 _ ⟨by norm_num, by norm_num, by norm_num⟩⟩

lemma sampleRand_valid : sampleRand.Valid := by
  unfold RandSrc.Valid sampleRand
  norm_num

/-- C4: a correct click while `PLAYING` increments the score, adds two
(capped at 60) seconds, records the `diffMetric` feedback of the solved
round, generates the next round at difficulty equal to the new score, and
stays in `PLAYING`. -/
theorem correct_click_spec (s : Session) (ld : LevelData) (r : RandSrc)
    (hg : s.gameState = GameState.PLAYING) (hld : s.levelData = some ld) :
    (handleBlockClick s ld.diffIndex r).score = s.score + 1 ∧
      (handleBlockClick s ld.diffIndex r).timeLeft = min 60 (s.timeLeft + 2) ∧
      (handleBlockClick s ld.diffIndex r).lastDiff = some (diffMetric ld) ∧
      (handleBlockClick s ld.diffIndex r).levelData =
        some (generateColor (s.score + 1) r) ∧
      (handleBlockClick s ld.diffIndex r).gameState = GameState.PLAYING := by
  simp [handleBlockClick, hg, hld]

/-- Witness for C4 at a concrete session and round. -/
theorem correct_click_spec_witness :
    (handleBlockClick demoPlaying demoLevel.diffIndex sampleRand).score =
        demoPlaying.score + 1 ∧
      (handleBlockClick demoPlaying demoLevel.diffIndex sampleRand).timeLeft =
        min 60 (demoPlaying.timeLeft + 2) ∧
      (handleBlockClick demoPlaying demoLevel.diffIndex sampleRand).lastDiff =
        some (diffMetric demoLevel) ∧
      (handleBlockClick demoPlaying demoLevel.diffIndex sampleRand).levelData =
        some (generateColor (demoPlaying.score + 1) sampleRand) ∧
      (handleBlockClick demoPlaying demoLevel.diffIndex sampleRand).gameState =
        GameState.PLAYING :=
  correct_click_spec demoPlaying demoLevel sampleRand rfl rfl

/-- C5: a wrong click while `PLAYING` only deducts five seconds (floored at
0); score, round, feedback and state are untouched, so even a click that
drives the clock to 0 does not end the game — the next tick does. -/
theorem wrong_click_spec (s : Session) (ld : LevelData) (i : ℤ) (r : RandSrc)
    (hg : s.gameState = GameState.PLAYING) (hld : s.levelData = some ld)
    (hne : i ≠ ld.diffIndex) :
    (handleBlockClick s i r).timeLeft = max 0 (s.timeLeft - 5) ∧
      (handleBlockClick s i r).score = s.score ∧
      (handleBlockClick s i r).levelData = s.levelData ∧
      (handleBlockClick s i r).lastDiff = s.lastDiff ∧
      (handleBlockClick s i r).gameState = GameState.PLAYING ∧
      (s.timeLeft ≤ 6 →
        (tick (handleBlockClick s i r)).1.gameState = GameState.GAMEOVER ∧
          (tick (handleBlockClick s i r)).1.timeLeft = 0) := by
  have hpost : handleBlockClick s i r = { s with timeLeft := max 0 (s.timeLeft - 5) } := by
    simp [handleBlockClick, hg, hld, hne]
  rw [hpost]
  refine ⟨rfl, rfl, by simp [hld], rfl, hg, fun h6 => ?_⟩
  have ht : max 0 (s.timeLeft - 5) ≤ 1 := by omega
  constructor
  · simp [tick, timerArmed, hg, ht]
  · simp [tick, timerArmed, hg, ht]

/-- Witness for C5: a concrete wrong click at five seconds left, after
which the next tick ends the game. -/
theorem wrong_click_spec_witness :
    ((handleBlockClick { demoPlaying with timeLeft := 5 }
          (demoLevel.diffIndex + 1) sampleRand).timeLeft =
        max 0 (({ demoPlaying with timeLeft := 5 } : Session).timeLeft - 5) ∧
      (handleBlockClick { demoPlaying with timeLeft := 5 }
          (demoLevel.diffIndex + 1) sampleRand).score =
        ({ demoPlaying with timeLeft := 5 } : Session).score ∧
      (handleBlockClick { demoPlaying with timeLeft := 5 }
          (demoLevel.diffIndex + 1) sampleRand).levelData =
        ({ demoPlaying with timeLeft := 5 } : Session).levelData ∧
      (handleBlockClick { demoPlaying with timeLeft := 5 }
          (demoLevel.diffIndex + 1) sampleRand).lastDiff =
        ({ demoPlaying with timeLeft := 5 } : Session).lastDiff ∧
      (handleBlockClick { demoPlaying with timeLeft := 5 }
          (demoLevel.diffIndex + 1) sampleRand).gameState = GameState.PLAYING ∧
      (({ demoPlaying with timeLeft := 5 } : Session).timeLeft ≤ 6 →
        (tick (handleBlockClick { demoPlaying with timeLeft := 5 }
          (demoLevel.diffIndex + 1) sampleRand)).1.gameState = GameState.GAMEOVER ∧
          (tick (handleBlockClick { demoPlaying with timeLeft := 5 }
            (demoLevel.diffIndex + 1) sampleRand)).1.timeLeft = 0)) :=
  wrong_click_spec { demoPlaying with timeLeft := 5 } demoLevel
    (demoLevel.diffIndex + 1) sampleRand rfl rfl (by omega)

lemma channelOf_grid300 (k : ℕ) :
    channelOf ((k : ℚ) / 300) =
      (if k < 99 then Channel.hue else if k < 198 then Channel.sat
        else Channel.light) := by
  have h1 : ((k : ℚ) / 300 < 33 / 100) ↔ k < 99 := by
    rw [div_lt_div_iff₀ (by norm_num : (0 : ℚ) < 300) (by norm_num : (0 : ℚ) < 100)]
    constructor
    · intro h
      have hq : (k : ℚ) * 100 < 9900 := by linarith
      have hn : k * 100 < 9900 := by exact_mod_cast hq
      omega
    · intro h
      have hn : k * 100 < 9900 := by omega
      have hq : (k : ℚ) * 100 < 9900 := by exact_mod_cast hn
      linarith
  have h2 : ((k : ℚ) / 300 < 66 / 100) ↔ k < 198 := by
    rw [div_lt_div_iff₀ (by norm_num : (0 : ℚ) < 300) (by norm_num : (0 : ℚ) < 100)]
    constructor
    · intro h
      have hq : (k : ℚ) * 100 < 19800 := by linarith
      have hn : k * 100 < 19800 := by exact_mod_cast hq
      omega
    · intro h
      have hn : k * 100 < 19800 := by omega
      have hq : (k : ℚ) * 100 < 19800 := by exact_mod_cast hn
      linarith
  unfold channelOf
  simp only [h1, h2]

lemma channelGridCount_300 :
    channelGridCount 300 Channel.hue = 99 ∧ channelGridCount 300 Channel.sat = 99 ∧
      channelGridCount 300 Channel.light = 102 := by
  have hfilter : ∀ c : Channel,
      channelGridCount 300 c =
        ((List.range 300).filter (fun k =>
          decide ((if k < 99 then Channel.hue else if k < 198 then Channel.sat
            else Channel.light) = c))).length := by
    intro c
    unfold channelGridCount
    apply congrArg List.length
    apply List.filter_congr
    intro k _
    simp only [Nat.cast_ofNat, channelOf_grid300]
  refine ⟨?_, ?_, ?_⟩ <;> rw [hfilter] <;>
    (set_option maxRecDepth 40000 in decide)

/-- C3 (amended): the channel to perturb is chosen by thresholding the
uniform draw at 0.33 and 0.66, so over the uniform grid of 300 equally
likely draws hue is selected 99 times, saturation 99 times and lightness
102 times — probabilities 0.33, 0.33 and 0.34, approximately but not
exactly one third each. -/
theorem channel_selection_counts :
    channelGridCount 300 Channel.hue = 99 ∧ channelGridCount 300 Channel.sat = 99 ∧
      channelGridCount 300 Channel.light = 102 ∧
      (∀ t : ℚ, channelOf t = Channel.hue ↔ t < 33 / 100) ∧
      (∀ t : ℚ, channelOf t = Channel.sat ↔ 33 / 100 ≤ t ∧ t < 66 / 100) ∧
      (∀ t : ℚ, channelOf t = Channel.light ↔ 66 / 100 ≤ t) :=
  ⟨channelGridCount_300.1, channelGridCount_300.2.1, channelGridCount_300.2.2,
    channelOf_hue_iff, channelOf_sat_iff, channelOf_light_iff⟩

/-- C3 counterexample: the lightness channel is selected on 102 of the 300
equally likely grid draws, not 100, so the three channels are not selected
with probability exactly one third each. -/
theorem channel_selection_not_third :
    ¬ 3 * channelGridCount 300 Channel.light = 300 := by
  rw [channelGridCount_300.2.2]
  norm_num

/-- C2: every generated round has `0 ≤ diffIndex < 25`; exactly one channel
of `diffColor` differs from `baseColor` while the other two are copied
unchanged; and when hue is the perturbed channel the new hue is
`(baseHue + delta) mod 360`, the additive direction. -/
theorem generateColor_round_spec (d : ℤ) (hd : 0 ≤ d) (r : RandSrc) (hr : r.Valid) :
    (0 ≤ (generateColor d r).diffIndex ∧ (generateColor d r).diffIndex < 25) ∧
      (((generateColor d r).baseColor.h ≠ (generateColor d r).diffColor.h ∧
          (generateColor d r).baseColor.s = (generateColor d r).diffColor.s ∧
          (generateColor d r).baseColor.l = (generateColor d r).diffColor.l) ∨
        ((generateColor d r).baseColor.h = (generateColor d r).diffColor.h ∧
          (generateColor d r).baseColor.s ≠ (generateColor d r).diffColor.s ∧
          (generateColor d r).baseColor.l = (generateColor d r).diffColor.l) ∨
        ((generateColor d r).baseColor.h = (generateColor d r).diffColor.h ∧
          (generateColor d r).baseColor.s = (generateColor d r).diffColor.s ∧
          (generateColor d r).baseColor.l ≠ (generateColor d r).diffColor.l)) ∧
      (channelOf r.rtype = Channel.hue →
        (generateColor d r).diffColor.h =
          jsMod ((generateColor d r).baseColor.h + deltaOf d) 360) := by
  obtain ⟨-, -, -, -, -, -, -, -, -, -, hix0, hix1⟩ := id hr
  refine ⟨⟨?_, ?_⟩, ?_, fun hch => ?_⟩
  · rw [generateColor_diffIndex]
    exact floor_mul_lb hix0 (by norm_num)
  · rw [generateColor_diffIndex]
    have h25 := floor_mul_ub hix1 (by norm_num : (0 : ℚ) < 25)
    exact_mod_cast h25
  · cases hch : channelOf r.rtype with
    | hue =>
      left
      rw [generateColor_baseColor, diffColor_hue_eq d r hch]
      obtain ⟨hh0, hh1⟩ := baseH_bounds r hr
      exact ⟨Ne.symm (hue_perturb_ne hh0 hh1 (deltaOf_pos d) (deltaOf_le d hd)),
        rfl, rfl⟩
    | sat =>
      right
      left
      rw [generateColor_baseColor, diffColor_sat_eq d r hd hr hch]
      refine ⟨rfl, ?_, rfl⟩
      intro hEq
      have h0 : baseS r = baseS r + signOf d r := hEq
      exact signOf_ne_zero d r (by linarith)
    | light =>
      right
      right
      rw [generateColor_baseColor, diffColor_light_eq d r hd hr hch]
      refine ⟨rfl, rfl, ?_⟩
      intro hEq
      have h0 : baseL r = baseL r + signOf d r := hEq
      exact signOf_ne_zero d r (by linarith)
  · rw [generateColor_baseColor, diffColor_hue_eq d r hch]

/-- Witness for C2 at difficulty 0 and the all-zeros draw. -/
theorem generateColor_round_spec_witness :
    (0 ≤ (generateColor 0 sampleRand).diffIndex ∧
        (generateColor 0 sampleRand).diffIndex < 25) ∧
      (((generateColor 0 sampleRand).baseColor.h ≠ (generateColor 0 sampleRand).diffColor.h ∧
          (generateColor 0 sampleRand).baseColor.s = (generateColor 0 sampleRand).diffColor.s ∧
          (generateColor 0 sampleRand).baseColor.l = (generateColor 0 sampleRand).diffColor.l) ∨
        ((generateColor 0 sampleRand).baseColor.h = (generateColor 0 sampleRand).diffColor.h ∧
          (generateColor 0 sampleRand).baseColor.s ≠ (generateColor 0 sampleRand).diffColor.s ∧
          (generateColor 0 sampleRand).baseColor.l = (generateColor 0 sampleRand).diffColor.l) ∨
        ((generateColor 0 sampleRand).baseColor.h = (generateColor 0 sampleRand).diffColor.h ∧
          (generateColor 0 sampleRand).baseColor.s = (generateColor 0 sampleRand).diffColor.s ∧
          (generateColor 0 sampleRand).baseColor.l ≠ (generateColor 0 sampleRand).diffColor.l)) ∧
      (channelOf sampleRand.rtype = Channel.hue →
        (generateColor 0 sampleRand).diffColor.h =
          jsMod ((generateColor 0 sampleRand).baseColor.h + deltaOf 0) 360) :=
  generateColor_round_spec 0 (by norm_num) sampleRand sampleRand_valid

/-- C10: the perturbed channel genuinely differs in every generated round:
the `[0,100]` clamp on saturation/lightness never binds (the perturbed value
stays strictly inside), the hue wrap never restores the base hue, so
`diffColor ≠ baseColor`. -/
theorem generateColor_diff_genuine (d : ℤ) (hd : 0 ≤ d) (r : RandSrc) (hr : r.Valid) :
    (channelOf r.rtype = Channel.sat →
      (generateColor d r).diffColor.s = baseS r + signOf d r ∧
        0 < baseS r + signOf d r ∧ baseS r + signOf d r < 100) ∧
      (channelOf r.rtype = Channel.light →
        (generateColor d r).diffColor.l = baseL r + signOf d r ∧
          0 < baseL r + signOf d r ∧ baseL r + signOf d r < 100) ∧
      (channelOf r.rtype = Channel.hue →
        (generateColor d r).diffColor.h ≠ (generateColor d r).baseColor.h) ∧
      (generateColor d r).diffColor ≠ (generateColor d r).baseColor := by
  refine ⟨fun ht => ?_, fun ht => ?_, fun ht => ?_, ?_⟩
  · rw [diffColor_sat_eq d r hd hr ht]
    exact ⟨rfl, sat_value_bounds d r hd hr⟩
  · rw [diffColor_light_eq d r hd hr ht]
    exact ⟨rfl, light_value_bounds d r hd hr⟩
  · rw [diffColor_hue_eq d r ht, generateColor_baseColor]
    obtain ⟨hh0, hh1⟩ := baseH_bounds r hr
    exact hue_perturb_ne hh0 hh1 (deltaOf_pos d) (deltaOf_le d hd)
  · cases hch : channelOf r.rtype with
    | hue =>
      rw [diffColor_hue_eq d r hch, generateColor_baseColor]
      intro hEq
      obtain ⟨hh0, hh1⟩ := baseH_bounds r hr
      have hh : jsMod (baseH r + deltaOf d) 360 = baseH r := congrArg Color.h hEq
      exact hue_perturb_ne hh0 hh1 (deltaOf_pos d) (deltaOf_le d hd) hh
    | sat =>
      rw [diffColor_sat_eq d r hd hr hch, generateColor_baseColor]
      intro hEq
      have hs : baseS r + signOf d r = baseS r := congrArg Color.s hEq
      exact signOf_ne_zero d r (by linarith)
    | light =>
      rw [diffColor_light_eq d r hd hr hch, generateColor_baseColor]
      intro hEq
      have hl : baseL r + signOf d r = baseL r := congrArg Color.l hEq
      exact signOf_ne_zero d r (by linarith)

lemma four_mul_deltaOf_int (d : ℤ) : deltaOf d * 4 = ((max 6 (60 - d) : ℤ) : ℚ) := by
  unfold deltaOf
  rw [max_mul_of_nonneg _ _ (by norm_num : (0 : ℚ) ≤ 4)]
  push_cast [Int.cast_max]
  congr 1 <;> ring

lemma toFixed2_of_quarter (x : ℚ) (m : ℤ) (hm : x * 4 = (m : ℚ)) : toFixed2 x = x := by
  unfold toFixed2
  have h100 : x * 100 = ((25 * m : ℤ) : ℚ) := by
    push_cast
    linarith
  rw [h100, round_intCast]
  push_cast
  linarith

lemma l1Delta_cases (d : ℤ) (r : RandSrc) (hd : 0 ≤ d) (hr : r.Valid) :
    l1Delta (generateColor d r) = deltaOf d ∨
      l1Delta (generateColor d r) = 360 - deltaOf d := by
  have hp0 := deltaOf_pos d
  have hp15 := deltaOf_le d hd
  cases hch : channelOf r.rtype with
  | hue =>
    unfold l1Delta
    rw [generateColor_baseColor, diffColor_hue_eq d r hch]
    obtain ⟨hh0, hh1⟩ := baseH_bounds r hr
    rcases lt_or_ge (baseH r + deltaOf d) 360 with hc | hc
    · left
      show |baseH r - jsMod (baseH r + deltaOf d) 360| + |baseS r - baseS r| +
        |baseL r - baseL r| = deltaOf d
      rw [jsMod_eq_self (by linarith) hc]
      have he : baseH r - (baseH r + deltaOf d) = -deltaOf d := by ring
      rw [he, abs_neg, abs_of_pos hp0]
      simp
    · right
      show |baseH r - jsMod (baseH r + deltaOf d) 360| + |baseS r - baseS r| +
        |baseL r - baseL r| = 360 - deltaOf d
      rw [jsMod_wrap hc (by linarith)]
      have he : baseH r - (baseH r + deltaOf d - 360) = 360 - deltaOf d := by ring
      rw [he, abs_of_pos (by linarith)]
      simp
  | sat =>
    left
    unfold l1Delta
    rw [generateColor_baseColor, diffColor_sat_eq d r hd hr hch]
    show |baseH r - baseH r| + |baseS r - (baseS r + signOf d r)| +
      |baseL r - baseL r| = deltaOf d
    have he : baseS r - (baseS r + signOf d r) = -signOf d r := by ring
    rw [he, abs_neg]
    rcases signOf_cases d r with hs | hs <;> rw [hs]
    · rw [abs_of_pos hp0]
      simp
    · rw [abs_neg, abs_of_pos hp0]
      simp
  | light =>
    left
    unfold l1Delta
    rw [generateColor_baseColor, diffColor_light_eq d r hd hr hch]
    show |baseH r - baseH r| + |baseS r - baseS r| +
      |baseL r - (baseL r + signOf d r)| = deltaOf d
    have he : baseL r - (baseL r + signOf d r) = -signOf d r := by ring
    rw [he, abs_neg]
    rcases signOf_cases d r with hs | hs <;> rw [hs]
    · rw [abs_of_pos hp0]
      simp
    · rw [abs_neg, abs_of_pos hp0]
      simp

/-- C9: the feedback recorded for a generated round carries the plain L1
distance over the raw channel values (the two-decimal display rounding is
exact on it, and there is no hue-circle shortest-arc correction: a wrapped
hue contributes `360 - delta`, not `delta`), and its two css strings are the
HSL encodings of the two colors. -/
theorem diffMetric_spec (d : ℤ) (hd : 0 ≤ d) (r : RandSrc) (hr : r.Valid) :
    diffMetric (generateColor d r) =
      { base := colorToCss (generateColor d r).baseColor
        diff := colorToCss (generateColor d r).diffColor
        delta := l1Delta (generateColor d r) } ∧
      (channelOf r.rtype = Channel.hue →
        l1Delta (generateColor d r) = deltaOf d ∨
          l1Delta (generateColor d r) = 360 - deltaOf d) := by
  have hfix : toFixed2 (l1Delta (generateColor d r)) = l1Delta (generateColor d r) := by
    rcases l1Delta_cases d r hd hr with h | h <;> rw [h]
    · exact toFixed2_of_quarter _ (max 6 (60 - d)) (four_mul_deltaOf_int d)
    · refine toFixed2_of_quarter _ (1440 - max 6 (60 - d)) ?_
      have h4 := four_mul_deltaOf_int d
      push_cast [Int.cast_max] at h4 ⊢
      linarith
  refine ⟨?_, fun _ => l1Delta_cases d r hd hr⟩
  unfold diffMetric colorToCss
  rw [hfix]

/-- Witness for C9 at difficulty 0 and the all-zeros draw. -/
theorem diffMetric_spec_witness :
    diffMetric (generateColor 0 sampleRand) =
      { base := colorToCss (generateColor 0 sampleRand).baseColor
        diff := colorToCss (generateColor 0 sampleRand).diffColor
        delta := l1Delta (generateColor 0 sampleRand) } ∧
      (channelOf sampleRand.rtype = Channel.hue →
        l1Delta (generateColor 0 sampleRand) = deltaOf 0 ∨
          l1Delta (generateColor 0 sampleRand) = 360 - deltaOf 0) :=
  diffMetric_spec 0 (by norm_num) sampleRand sampleRand_valid

/-- Witness for C10 at difficulty 0 and the all-zeros draw. -/
theorem generateColor_diff_genuine_witness :
    (channelOf sampleRand.rtype = Channel.sat →
      (generateColor 0 sampleRand).diffColor.s = baseS sampleRand + signOf 0 sampleRand ∧
        0 < baseS sampleRand + signOf 0 sampleRand ∧
          baseS sampleRand + signOf 0 sampleRand < 100) ∧
      (channelOf sampleRand.rtype = Channel.light →
        (generateColor 0 sampleRand).diffColor.l = baseL sampleRand + signOf 0 sampleRand ∧
          0 < baseL sampleRand + signOf 0 sampleRand ∧
            baseL sampleRand + signOf 0 sampleRand < 100) ∧
      (channelOf sampleRand.rtype = Channel.hue →
        (generateColor 0 sampleRand).diffColor.h ≠ (generateColor 0 sampleRand).baseColor.h) ∧
      (generateColor 0 sampleRand).diffColor ≠ (generateColor 0 sampleRand).baseColor :=
  generateColor_diff_genuine 0 (by norm_num) sampleRand sampleRand_valid

end ChromaSense
